import Mathlib

/-!
Shallow embedding of `src/static/js/app.js` (class `MailApp`) from the
Hackamail repository.

Modelling conventions:
* Raw JSON record fields are `Option`-valued; `none` means the field is
  absent (or `undefined`/`null`).  String-valued fields use `Option String`,
  and JavaScript truthiness on them (`a || b`) is "present and non-empty".
* Date fields are modelled as numeric millisecond timestamps (`Option Nat`);
  in the source they are ISO strings, always non-empty when present, so JS
  truthiness on them is presence.  `new Date(s)` parsing is the identity on
  the timestamp and `new Date()` / `new Date().toISOString()` is an ambient
  `now : Nat` parameter.
* Numeric coordinate fields use `Option Int`; JS truthiness on a number is
  "present and non-zero" (`0` is falsy).
* `Math.random().toString(36)` is modelled as an ambient stream
  `rand : Nat → String` sampled at the record's index in its list.
* The DOM mail list is modelled as `List DomItem`: each rendered `.mail-item`
  element keeps the item, its rendered `textContent` (lower-level whitespace
  collapsed to single spaces) and its visibility (`style.display`).
  `toLocaleDateString` is an ambient formatter parameter `absFmt`.
-/

/-- JS truthiness of an optional string field: `some s` survives iff `s` is
non-empty (empty string is falsy in JS). -/
def truthyStr : Option String → Option String
  | some s => if s = "" then none else some s
  | none => none

/-- JS truthiness of an optional number field: `some x` survives iff `x ≠ 0`
(the number `0` is falsy in JS). -/
def truthyInt : Option Int → Option Int
  | some x => if x = 0 then none else some x
  | none => none

/-- `leadsWith need hay` : `need` is a prefix of the char list `hay`. -/
def leadsWith : List Char → List Char → Bool
  | [], _ => true
  | _ :: _, [] => false
  | a :: as, b :: bs => a = b && leadsWith as bs

/-- `hasSub need hay` : `need` occurs as a contiguous sublist of `hay`
(JS `String.prototype.includes`). -/
def hasSub : List Char → List Char → Bool
  | need, [] => leadsWith need []
  | need, b :: bs => leadsWith need (b :: bs) || hasSub need bs

/-- JS `hay.includes(need)` on strings. -/
def strIncludes (hay need : String) : Bool :=
  hasSub need.data hay.data

/-- JS `s.toLowerCase()` (ASCII case mapping on each character). -/
def jsToLower (s : String) : String :=
  String.mk (s.data.map Char.toLower)

/-- JS `s.charAt(0).toUpperCase() + s.slice(1)` (used for the badge text). -/
def upFirst (s : String) : String :=
  match s.data with
  | [] => ""
  | c :: cs => String.mk (c.toUpper :: cs)

/-- Nested `location` object of a raw record (`raw.location.{lat,lng,label}`). -/
structure LocShape where
  lat : Option Int
  lng : Option Int
  label : Option String
  deriving DecidableEq

/-- Nested `tracking_location` object of a raw record. -/
structure TrackShape where
  lat : Option Int
  lng : Option Int
  deriving DecidableEq

/-- A raw JSON record from one of the three feeds.  All field names used by
`app.js` appear; `extra` stands for any further fields a feed might carry
(retained verbatim, never read by the normalizer or the detail extractor). -/
structure RawRecord where
  id : Option String := none
  from_ : Option String := none
  sender : Option String := none
  carrier : Option String := none
  subject : Option String := none
  title : Option String := none
  tracking_number : Option String := none
  preview : Option String := none
  body : Option String := none
  description : Option String := none
  status : Option String := none
  date : Option Nat := none
  created_at : Option Nat := none
  received_at : Option Nat := none
  unread : Option Bool := none
  weight : Option String := none
  dimensions : Option String := none
  sender_address : Option String := none
  recipient_address : Option String := none
  estimated_delivery : Option String := none
  location : Option LocShape := none
  latitude : Option Int := none
  longitude : Option Int := none
  tracking_location : Option TrackShape := none
  extra : List (String × String) := []
  deriving DecidableEq

/-- A raw fetch body after JSON parsing: `null`/falsy, a bare array, or an
object possibly wrapping arrays under a category key or the generic `data`
key (the shapes `normalize*Data` sniffs for). -/
inductive Payload where
  | nullish : Payload
  | arr (items : List RawRecord) : Payload
  | obj (mail letters packages data : Option (List RawRecord)) : Payload
  deriving DecidableEq

/-- Normalized item produced by the `normalize*Data` methods. -/
structure NormalizedItem where
  id : String
  type : String
  from_ : String
  subject : String
  preview : String
  date : Nat
  unread : Bool
  originalData : RawRecord
  deriving DecidableEq

/-- One mail record normalized (`normalizeMailData`'s per-item mapping);
`rnd` is the `Math.random().toString(36)` sample for this record. -/
def normalizeMailItem (rnd : String) (now : Nat) (item : RawRecord) : NormalizedItem :=
  { id := match truthyStr item.id with
          | some s => s
          | none => rnd
    type := "mail"
    from_ := match truthyStr item.from_ with
             | some s => s
             | none => match truthyStr item.sender with
                       | some s => s
                       | none => "Unknown"
    subject := match truthyStr item.subject with
               | some s => s
               | none => "No Subject"
    preview := match truthyStr item.preview with
               | some s => s
               | none => match truthyStr item.body with
                         | some s => s
                         | none => ""
    date := match item.date with
            | some d => d
            | none => match item.created_at with
                      | some d => d
                      | none => now
    unread := match item.unread with
              | some b => b
              | none => true
    originalData := item }

/-- One letter record normalized (`normalizeLettersData`'s per-item mapping). -/
def normalizeLettersItem (rnd : String) (now : Nat) (item : RawRecord) : NormalizedItem :=
  { id := match truthyStr item.id with
          | some s => s
          | none => rnd
    type := "letter"
    from_ := match truthyStr item.from_ with
             | some s => s
             | none => match truthyStr item.sender with
                       | some s => s
                       | none => "Unknown"
    subject := match truthyStr item.subject with
               | some s => s
               | none => match truthyStr item.title with
                         | some s => s
                         | none => "Letter"
    preview := match truthyStr item.preview with
               | some s => s
               | none => match truthyStr item.description with
                         | some s => s
                         | none => ""
    date := match item.date with
            | some d => d
            | none => match item.received_at with
                      | some d => d
                      | none => now
    unread := match item.unread with
              | some b => b
              | none => true
    originalData := item }

/-- One package record normalized (`normalizePackagesData`'s per-item mapping). -/
def normalizePackagesItem (rnd : String) (now : Nat) (item : RawRecord) : NormalizedItem :=
  { id := match truthyStr item.id with
          | some s => s
          | none => rnd
    type := "package"
    from_ := match truthyStr item.from_ with
             | some s => s
             | none => match truthyStr item.sender with
                       | some s => s
                       | none => match truthyStr item.carrier with
                                 | some s => s
                                 | none => "Unknown"
    subject := match truthyStr item.subject with
               | some s => s
               | none => match truthyStr item.tracking_number with
                         | some s => s
                         | none => "Package"
    preview := match truthyStr item.preview with
               | some s => s
               | none => match truthyStr item.description with
                         | some s => s
                         | none => match truthyStr item.status with
                                   | some s => s
                                   | none => ""
    date := match item.date with
            | some d => d
            | none => match item.received_at with
                      | some d => d
                      | none => now
    unread := match item.unread with
              | some b => b
              | none => true
    originalData := item }

/-- `items.map(...)` with the ambient random stream sampled per index. -/
def normalizeList (f : String → Nat → RawRecord → NormalizedItem)
    (rand : Nat → String) (now : Nat) (i : Nat) : List RawRecord → List NormalizedItem
  | [] => []
  | item :: rest => f (rand i) now item :: normalizeList f rand now (i + 1) rest

/-- `MailApp.normalizeMailData`: unwrap `data.mail || data.data || data`,
return `[]` when the result is not an array, else map each record. -/
def normalizeMailData (rand : Nat → String) (now : Nat) (data : Payload) : List NormalizedItem :=
  match data with
  | .nullish => []
  | .arr items => normalizeList normalizeMailItem rand now 0 items
  | .obj m _ _ d =>
    match m with
    | some items => normalizeList normalizeMailItem rand now 0 items
    | none =>
      match d with
      | some items => normalizeList normalizeMailItem rand now 0 items
      | none => []

/-- `MailApp.normalizeLettersData`: unwrap `data.letters || data.data || data`. -/
def normalizeLettersData (rand : Nat → String) (now : Nat) (data : Payload) : List NormalizedItem :=
  match data with
  | .nullish => []
  | .arr items => normalizeList normalizeLettersItem rand now 0 items
  | .obj _ l _ d =>
    match l with
    | some items => normalizeList normalizeLettersItem rand now 0 items
    | none =>
      match d with
      | some items => normalizeList normalizeLettersItem rand now 0 items
      | none => []

/-- `MailApp.normalizePackagesData`: unwrap `data.packages || data.data || data`. -/
def normalizePackagesData (rand : Nat → String) (now : Nat) (data : Payload) : List NormalizedItem :=
  match data with
  | .nullish => []
  | .arr items => normalizeList normalizePackagesItem rand now 0 items
  | .obj _ _ p d =>
    match p with
    | some items => normalizeList normalizePackagesItem rand now 0 items
    | none =>
      match d with
      | some items => normalizeList normalizePackagesItem rand now 0 items
      | none => []

/-- `MailApp.formatDate`: relative time against `nowMs`, absolute short date
(via the ambient locale formatter `absFmt`) beyond 7 days.  `Math.floor` of a
division is `Int.fdiv`. -/
def formatDate (absFmt : Nat → String) (dateMs nowMs : Nat) : String :=
  let diffMs : Int := (nowMs : Int) - (dateMs : Int)
  let diffMins : Int := Int.fdiv diffMs 60000
  let diffHours : Int := Int.fdiv diffMs 3600000
  let diffDays : Int := Int.fdiv diffMs 86400000
  if diffMins < 1 then "now"
  else if diffMins < 60 then s!"{diffMins}m"
  else if diffHours < 24 then s!"{diffHours}h"
  else if diffDays < 7 then s!"{diffDays}d"
  else absFmt dateMs

/-- The three normalized collections (`this.mailData`). -/
structure MailData where
  mail : List NormalizedItem
  letters : List NormalizedItem
  packages : List NormalizedItem
  deriving DecidableEq

/-- A rendered `.mail-item` DOM element: the item it was rendered from, its
`textContent` as rendered, and whether `style.display` leaves it visible. -/
structure DomItem where
  item : NormalizedItem
  text : String
  visible : Bool
  deriving DecidableEq

/-- The mutable state of the `MailApp` singleton (the fields the core logic
reads and writes; DOM-only widgets such as buttons are omitted). -/
structure AppState where
  apiKey : String
  currentFilter : String
  mailData : MailData
  allMailItems : List NormalizedItem
  mailList : List DomItem
  deriving DecidableEq

/-- Insert one item into an already-sorted (date-descending) list, keeping
later elements after earlier ones on ties: the stable in-place
`allItems.sort((a, b) => new Date(b.date) - new Date(a.date))`. -/
def insertByDate (x : NormalizedItem) : List NormalizedItem → List NormalizedItem
  | [] => [x]
  | y :: ys => if y.date ≤ x.date then x :: y :: ys else y :: insertByDate x ys

/-- Stable sort by `date` descending (ties keep original order), modelling the
ECMAScript stable `Array.prototype.sort` with the comparator above. -/
def sortByDateDesc : List NormalizedItem → List NormalizedItem
  | [] => []
  | x :: xs => insertByDate x (sortByDateDesc xs)

/-- The base sequence `displayMail` selects from the store by the current
filter (the `switch(this.currentFilter)`). -/
def selectBase (s : AppState) : List NormalizedItem :=
  match s.currentFilter with
  | "mail" => s.mailData.mail
  | "letters" => s.mailData.letters
  | "packages" => s.mailData.packages
  | "unread" => s.allMailItems.filter (fun it => it.unread)
  | _ => s.allMailItems

/-- `textContent` of a rendered `.mail-item` (from, badge, relative date,
subject, preview), with whitespace collapsed to single spaces. -/
def renderedText (absFmt : Nat → String) (now : Nat) (item : NormalizedItem) : String :=
  item.from_ ++ " " ++ upFirst item.type ++ " " ++ formatDate absFmt item.date now
    ++ " " ++ item.subject ++ " " ++ item.preview

/-- `MailApp.displayMail`: select the base sequence, sort it by date
descending IN PLACE (for `mail`/`letters`/`packages` this mutates the stored
category array, for the default `all` case it mutates `allMailItems`; the
`unread` case sorts a fresh `filter()` copy), then render the list. -/
def displayMail (absFmt : Nat → String) (now : Nat) (s : AppState) : AppState :=
  let sorted := sortByDateDesc (selectBase s)
  let s' :=
    match s.currentFilter with
    | "mail" => { s with mailData := { s.mailData with mail := sorted } }
    | "letters" => { s with mailData := { s.mailData with letters := sorted } }
    | "packages" => { s with mailData := { s.mailData with packages := sorted } }
    | "unread" => s
    | _ => { s with allMailItems := sorted }
  { s' with mailList := sorted.map (fun it => ⟨it, renderedText absFmt now it, true⟩) }

/-- `MailApp.filterMail`: set the current filter, then re-render. -/
def filterMail (absFmt : Nat → String) (now : Nat) (category : String) (s : AppState) : AppState :=
  displayMail absFmt now { s with currentFilter := category }

/-- `MailApp.searchMail`: for every rendered `.mail-item`, set
`style.display` by whether its lowercased text contains the lowercased
query as a substring.  The store and the rendered list are untouched. -/
def searchMail (query : String) (s : AppState) : AppState :=
  { s with mailList :=
      s.mailList.map (fun d => { d with visible := strIncludes (jsToLower d.text) (jsToLower query) }) }

/-- The items the user currently sees in the list. -/
def visibleItems (s : AppState) : List NormalizedItem :=
  (s.mailList.filter (fun d => d.visible)).map (fun d => d.item)

/-- The numbers `MailApp.updateStats` writes into the stat cards and
category counters. -/
structure Stats where
  totalMail : Nat
  totalLetters : Nat
  totalPackages : Nat
  total : Nat
  unreadCount : Nat
  deriving DecidableEq

/-- `MailApp.updateStats` (a pure derivation from the store). -/
def updateStats (s : AppState) : Stats :=
  { totalMail := s.mailData.mail.length
    totalLetters := s.mailData.letters.length
    totalPackages := s.mailData.packages.length
    total := s.mailData.mail.length + s.mailData.letters.length + s.mailData.packages.length
    unreadCount := (s.allMailItems.filter (fun it => it.unread)).length }

/-- A settled fetch: HTTP `ok` flag and the parsed body (`none` when the body
is not valid JSON, so that `response.json()` throws).  A rejected network
promise is modelled the same way as a parse failure: both reach the same
`catch` with the store untouched. -/
structure FetchResponse where
  ok : Bool
  body : Option Payload
  deriving DecidableEq

/-- Outcome surfaced to the user by `loadAllMail`: the success notification
or the single aggregate `showError`. -/
inductive LoadResult where
  | success : LoadResult
  | failure : LoadResult
  deriving DecidableEq

/-- `MailApp.showLoading` / `MailApp.showError`: both replace the mail list
DOM contents with a non-item placeholder, so no `.mail-item` remains. -/
def clearMailList (s : AppState) : AppState :=
  { s with mailList := [] }

/-- `MailApp.loadAllMail`: guard on the API key, fetch the three sources,
parse all bodies, check all `ok` flags, and only then replace the store,
update stats (pure) and re-render.  Any parse failure or non-ok response
throws before the store assignment, landing in the `catch` with the store
unchanged. -/
def loadAllMail (absFmt : Nat → String) (randM randL randP : Nat → String) (now : Nat)
    (mailR lettersR packagesR : FetchResponse) (s : AppState) : AppState × LoadResult :=
  if s.apiKey = "" then
    (clearMailList s, .failure)
  else
    let s₁ := clearMailList s
    match mailR.body, lettersR.body, packagesR.body with
    | some mailJson, some lettersJson, some packagesJson =>
      if mailR.ok && lettersR.ok && packagesR.ok then
        let m := normalizeMailData randM now mailJson
        let l := normalizeLettersData randL now lettersJson
        let p := normalizePackagesData randP now packagesJson
        let s₂ := { s₁ with mailData := ⟨m, l, p⟩, allMailItems := m ++ l ++ p }
        (displayMail absFmt now s₂, .success)
      else
        (s₁, .failure)
    | _, _, _ => (s₁, .failure)

/-- One row of the detail grid. -/
structure Detail where
  label : String
  value : String
  deriving DecidableEq

/-- `if (data.f) details.push({label, value: data.f})`: append one row when
the field is truthy, else leave the accumulated rows unchanged. -/
def pushIf (acc : List Detail) (lab : String) (o : Option String) : List Detail :=
  match truthyStr o with
  | some v => acc ++ [Detail.mk lab v]
  | none => acc

/-- `MailApp.extractDetails`: push a row for each truthy known field of the
retained raw record, in the source's fixed order. -/
def extractDetails (item : NormalizedItem) : List Detail :=
  let data := item.originalData
  let details : List Detail := []
  let details := pushIf details "ID" data.id
  let details := pushIf details "Status" data.status
  let details := pushIf details "Tracking" data.tracking_number
  let details := pushIf details "Carrier" data.carrier
  let details := pushIf details "Weight" data.weight
  let details := pushIf details "Dimensions" data.dimensions
  let details := pushIf details "Sender Address" data.sender_address
  let details := pushIf details "Recipient" data.recipient_address
  let details := pushIf details "Est. Delivery" data.estimated_delivery
  details

/-- A location point handed to the map adapter.  The third raw shape in the
source copies `tracking_location.lat/lng` without checking them, so the
coordinates are `Option`s: `some x` when the raw field held a number. -/
structure LocationPoint where
  lat : Option Int
  lng : Option Int
  label : String
  deriving DecidableEq

/-- `MailApp.extractLocationData`: try `raw.location.{lat,lng}` (both
truthy), then `raw.latitude`/`raw.longitude` (both truthy), then
`raw.tracking_location` (object present — its `lat`/`lng` are copied
verbatim, unchecked); otherwise `null`. -/
def extractLocationData (item : NormalizedItem) : Option LocationPoint :=
  let data := item.originalData
  let shape1 : Option LocationPoint :=
    match data.location with
    | some loc =>
      match truthyInt loc.lat, truthyInt loc.lng with
      | some la, some ln =>
        some ⟨some la, some ln, match truthyStr loc.label with
                                | some s => s
                                | none => "Location"⟩
      | _, _ => none
    | none => none
  match shape1 with
  | some p => some p
  | none =>
    match truthyInt data.latitude, truthyInt data.longitude with
    | some la, some ln => some ⟨some la, some ln, "Location"⟩
    | _, _ =>
      match data.tracking_location with
      | some tl => some ⟨tl.lat, tl.lng, "Tracking Location"⟩
      | none => none

/-- Spec-side reading of a JS `a || b || ... || "dflt"` chain over optional
string fields: the first present, non-empty field wins, else the default. -/
def firstTruthy (dflt : String) : List (Option String) → String
  | [] => dflt
  | o :: rest =>
    match truthyStr o with
    | some s => s
    | none => firstTruthy dflt rest

/-- Spec-side fixed detail vocabulary: label and raw field, in the source's
push order. -/
def detailKeySpec (data : RawRecord) : List (String × Option String) :=
  [("ID", data.id), ("Status", data.status), ("Tracking", data.tracking_number),
   ("Carrier", data.carrier), ("Weight", data.weight), ("Dimensions", data.dimensions),
   ("Sender Address", data.sender_address), ("Recipient", data.recipient_address),
   ("Est. Delivery", data.estimated_delivery)]

/-- Spec-side detail extraction: keep, in vocabulary order, exactly the
present-and-non-empty fields. -/
def extractDetailsSpec (data : RawRecord) : List Detail :=
  (detailKeySpec data).filterMap (fun p => (truthyStr p.2).map (fun v => Detail.mk p.1 v))

/-- Ambient locale date formatter used by the concrete scenarios below. -/
def janFmt : Nat → String := fun _ => "Jan 1"

/-- Concrete normalized mail item (no raw data) for the view-state scenarios. -/
def c1Item : NormalizedItem :=
  ⟨"id1", "mail", "Alice", "Subject", "", 0, true, {}⟩

/-- App state holding one mail item, as right after a first render. -/
def c1Start : AppState :=
  displayMail janFmt 0 ⟨"key", "all", ⟨[c1Item], [], []⟩, [c1Item], []⟩

/-- Concrete mail item older than `c2Letter`. -/
def c2Mail : NormalizedItem :=
  ⟨"id1", "mail", "Alice", "S", "", 0, true, {}⟩

/-- Concrete letter item newer than `c2Mail`. -/
def c2Letter : NormalizedItem :=
  ⟨"id2", "letter", "Bob", "T", "", 5, true, {}⟩

/-- Store in source-concatenation order: union = mail ++ letters ++ packages. -/
def c2State : AppState :=
  ⟨"key", "all", ⟨[c2Mail], [c2Letter], []⟩, [c2Mail, c2Letter], []⟩

/-- State with the `unread` filter active and an empty store. -/
def c2WState : AppState :=
  ⟨"k", "unread", ⟨[], [], []⟩, [], []⟩

/-- Item whose raw record has a `tracking_location` object carrying no
coordinates at all. -/
def c6Item : NormalizedItem :=
  ⟨"id", "package", "X", "S", "", 0, true, { tracking_location := some ⟨none, none⟩ }⟩

/-- Item carrying both a nested `location` point and top-level
`latitude`/`longitude`. -/
def c6PrecItem : NormalizedItem :=
  ⟨"id", "package", "X", "S", "", 0, true,
    { location := some ⟨some 1, some 2, none⟩, latitude := some 3, longitude := some 4 }⟩

/-- Item whose only coordinates are top-level `latitude = 0`, `longitude = 0`. -/
def c10Item : NormalizedItem :=
  ⟨"id", "mail", "X", "S", "", 0, true, { latitude := some 0, longitude := some 0 }⟩

theorem insertByDate_perm (x : NormalizedItem) (l : List NormalizedItem) :
    (insertByDate x l).Perm (x :: l) := by
  induction l with
  | nil => exact List.Perm.refl _
  | cons y ys ih =>
    by_cases h : y.date ≤ x.date
    · simp [insertByDate, h]
    · simp only [insertByDate, if_neg h]
      exact (ih.cons y).trans (List.Perm.swap x y ys)

theorem sortByDateDesc_perm (l : List NormalizedItem) : (sortByDateDesc l).Perm l := by
  induction l with
  | nil => exact List.Perm.refl _
  | cons x xs ih => exact (insertByDate_perm x (sortByDateDesc xs)).trans (ih.cons x)

theorem sortByDateDesc_length (l : List NormalizedItem) :
    (sortByDateDesc l).length = l.length :=
  (sortByDateDesc_perm l).length_eq

theorem sortByDateDesc_filter_length (p : NormalizedItem → Bool) (l : List NormalizedItem) :
    ((sortByDateDesc l).filter p).length = (l.filter p).length :=
  ((sortByDateDesc_perm l).filter p).length_eq

theorem filter_visible_map (p : String → Bool) (txt : NormalizedItem → String)
    (l : List NormalizedItem) :
    (((l.map (fun it => DomItem.mk it (txt it) true)).map
        (fun d => { d with visible := p d.text })).filter (fun d => d.visible)).map
          (fun d => d.item)
      = l.filter (fun it => p (txt it)) := by
  induction l with
  | nil => rfl
  | cons a t ih =>
    simp only [List.map_cons, List.map_map] at ih ⊢
    by_cases h : p (txt a) <;> simp [List.filter_cons, h, ih]

theorem map_render_all_visible (txt : NormalizedItem → String) (l : List NormalizedItem) :
    ((l.map (fun it => DomItem.mk it (txt it) true)).filter (fun d => d.visible)).map
        (fun d => d.item) = l := by
  induction l with
  | nil => rfl
  | cons a t ih => simp [List.filter_cons, ih]

theorem pushIf_eq (acc : List Detail) (lab : String) (o : Option String) :
    pushIf acc lab o = acc ++ ((truthyStr o).map (fun v => Detail.mk lab v)).toList := by
  cases h : truthyStr o <;> simp [pushIf, h]

theorem filterMap_cons_toList (f : α → Option β) (a : α) (l : List α) :
    List.filterMap f (a :: l) = (f a).toList ++ List.filterMap f l := by
  cases h : f a <;> simp [List.filterMap_cons, h]

theorem detailSpec_label_sublist (ps : List (String × Option String)) :
    (((ps.filterMap (fun p => (truthyStr p.2).map (fun v => Detail.mk p.1 v))).map
        (fun d => d.label))).Sublist (ps.map (fun p => p.1)) := by
  induction ps with
  | nil => simp
  | cons a t ih =>
    cases h : truthyStr a.2 with
    | none =>
      simp only [List.filterMap_cons, h, Option.map_none', List.map_cons]
      exact ih.cons _
    | some v =>
      simp only [List.filterMap_cons, h, Option.map_some', List.map_cons]
      exact ih.cons₂ _

theorem displayMail_union_invariant (absFmt : Nat → String) (now : Nat) (s : AppState)
    (hu : s.allMailItems = s.mailData.mail ++ s.mailData.letters ++ s.mailData.packages) :
    (displayMail absFmt now s).allMailItems.length
        = (displayMail absFmt now s).mailData.mail.length
          + (displayMail absFmt now s).mailData.letters.length
          + (displayMail absFmt now s).mailData.packages.length ∧
    ((displayMail absFmt now s).allMailItems.filter (fun it => it.unread)).length
        = (((displayMail absFmt now s).mailData.mail
            ++ (displayMail absFmt now s).mailData.letters
            ++ (displayMail absFmt now s).mailData.packages).filter
              (fun it => it.unread)).length := by
  by_cases h1 : s.currentFilter = "mail"
  · constructor <;>
      simp [displayMail, selectBase, h1, hu, sortByDateDesc_length,
        List.filter_append, sortByDateDesc_filter_length] <;> omega
  · by_cases h2 : s.currentFilter = "letters"
    · constructor <;>
        simp [displayMail, selectBase, h2, hu, sortByDateDesc_length,
          List.filter_append, sortByDateDesc_filter_length] <;> omega
    · by_cases h3 : s.currentFilter = "packages"
      · constructor <;>
          simp [displayMail, selectBase, h3, hu, sortByDateDesc_length,
            List.filter_append, sortByDateDesc_filter_length] <;> omega
      · by_cases h4 : s.currentFilter = "unread"
        · constructor <;>
            simp [displayMail, selectBase, h4, hu, sortByDateDesc_length,
              List.filter_append, sortByDateDesc_filter_length] <;> omega
        · constructor <;>
            simp [displayMail, selectBase, h1, h2, h3, h4, hu, sortByDateDesc_length,
              List.filter_append, sortByDateDesc_filter_length] <;> omega

theorem normalizeMailItem_ambient_free (r1 r2 : String) (n1 n2 : Nat) (it : RawRecord)
    (hid : truthyStr it.id ≠ none) (hdate : it.date ≠ none) :
    normalizeMailItem r1 n1 it = normalizeMailItem r2 n2 it := by
  cases hi : truthyStr it.id with
  | none => exact absurd hi hid
  | some v =>
    cases hd : it.date with
    | none => exact absurd hd hdate
    | some d => simp [normalizeMailItem, hi, hd]

theorem normalizeLettersItem_ambient_free (r1 r2 : String) (n1 n2 : Nat) (it : RawRecord)
    (hid : truthyStr it.id ≠ none) (hdate : it.date ≠ none) :
    normalizeLettersItem r1 n1 it = normalizeLettersItem r2 n2 it := by
  cases hi : truthyStr it.id with
  | none => exact absurd hi hid
  | some v =>
    cases hd : it.date with
    | none => exact absurd hd hdate
    | some d => simp [normalizeLettersItem, hi, hd]

theorem normalizePackagesItem_ambient_free (r1 r2 : String) (n1 n2 : Nat) (it : RawRecord)
    (hid : truthyStr it.id ≠ none) (hdate : it.date ≠ none) :
    normalizePackagesItem r1 n1 it = normalizePackagesItem r2 n2 it := by
  cases hi : truthyStr it.id with
  | none => exact absurd hi hid
  | some v =>
    cases hd : it.date with
    | none => exact absurd hd hdate
    | some d => simp [normalizePackagesItem, hi, hd]

theorem normalizeList_ambient_free (f : String → Nat → RawRecord → NormalizedItem)
    (hf : ∀ (r1 r2 : String) (n1 n2 : Nat) (it : RawRecord),
      truthyStr it.id ≠ none → it.date ≠ none → f r1 n1 it = f r2 n2 it)
    (r1 r2 : Nat → String) (n1 n2 i j : Nat) (items : List RawRecord)
    (h : ∀ it ∈ items, truthyStr it.id ≠ none ∧ it.date ≠ none) :
    normalizeList f r1 n1 i items = normalizeList f r2 n2 j items := by
  induction items generalizing i j with
  | nil => rfl
  | cons a t ih =>
    simp only [normalizeList]
    have ha := h a (by simp)
    rw [hf _ _ _ _ _ ha.1 ha.2]
    rw [ih _ _ (fun it hit => h it (by simp [hit]))]

/-- C3 (confirmed): `loadAllMail` is all-or-nothing — whenever any of the
three fetches has a body that is not valid JSON or a non-ok status, the
store (`mailData` and the flattened union `allMailItems`) is left exactly
as before the load attempt and a single aggregate failure is surfaced. -/
theorem load_failure_leaves_store (absFmt : Nat → String) (randM randL randP : Nat → String)
    (now : Nat) (mailR lettersR packagesR : FetchResponse) (s : AppState)
    (hfail : mailR.body = none ∨ lettersR.body = none ∨ packagesR.body = none ∨
      mailR.ok = false ∨ lettersR.ok = false ∨ packagesR.ok = false) :
    (loadAllMail absFmt randM randL randP now mailR lettersR packagesR s).1.mailData
        = s.mailData ∧
    (loadAllMail absFmt randM randL randP now mailR lettersR packagesR s).1.allMailItems
        = s.allMailItems ∧
    (loadAllMail absFmt randM randL randP now mailR lettersR packagesR s).2
        = LoadResult.failure := by
  obtain ⟨okM, bM⟩ := mailR
  obtain ⟨okL, bL⟩ := lettersR
  obtain ⟨okP, bP⟩ := packagesR
  simp only [loadAllMail]
  by_cases hk : s.apiKey = ""
  · simp [hk, clearMailList]
  · rw [if_neg hk]
    cases bM with
    | none => simp [clearMailList]
    | some mj =>
      cases bL with
      | none => simp [clearMailList]
      | some lj =>
        cases bP with
        | none => simp [clearMailList]
        | some pj =>
          simp only [FetchResponse.body, FetchResponse.ok] at hfail
          have hok : (okM && okL && okP) = false := by
            cases okM <;> cases okL <;> cases okP <;> simp_all
          simp [hok, clearMailList]

/-- Witness for `load_failure_leaves_store`: a concrete failed load (the mail
fetch returned ok = false) leaves a concrete store unchanged. -/
theorem load_failure_leaves_store_witness :
    (loadAllMail janFmt (fun _ => "r") (fun _ => "r") (fun _ => "r") 0
        ⟨false, some Payload.nullish⟩ ⟨true, some Payload.nullish⟩
        ⟨true, some Payload.nullish⟩ c2State).1.mailData = c2State.mailData ∧
    (loadAllMail janFmt (fun _ => "r") (fun _ => "r") (fun _ => "r") 0
        ⟨false, some Payload.nullish⟩ ⟨true, some Payload.nullish⟩
        ⟨true, some Payload.nullish⟩ c2State).1.allMailItems = c2State.allMailItems ∧
    (loadAllMail janFmt (fun _ => "r") (fun _ => "r") (fun _ => "r") 0
        ⟨false, some Payload.nullish⟩ ⟨true, some Payload.nullish⟩
        ⟨true, some Payload.nullish⟩ c2State).2 = LoadResult.failure :=
  load_failure_leaves_store janFmt (fun _ => "r") (fun _ => "r") (fun _ => "r") 0
    ⟨false, some Payload.nullish⟩ ⟨true, some Payload.nullish⟩
    ⟨true, some Payload.nullish⟩ c2State
    (Or.inr (Or.inr (Or.inr (Or.inl rfl))))

/-- C4 (confirmed): after every successful load, the derived statistics
satisfy `total = |mail| + |letters| + |packages|` and `unreadCount` equals
the number of unread items in the flattened union; moreover `total` equals
the size of the stored union and `unreadCount` also equals the unread count
of the concatenation of the three stored category sequences. -/
theorem load_success_stats (absFmt : Nat → String) (randM randL randP : Nat → String)
    (now : Nat) (mailR lettersR packagesR : FetchResponse) (s s' : AppState)
    (hsucc : loadAllMail absFmt randM randL randP now mailR lettersR packagesR s
      = (s', LoadResult.success)) :
    (updateStats s').total
        = s'.mailData.mail.length + s'.mailData.letters.length + s'.mailData.packages.length ∧
    (updateStats s').unreadCount = (s'.allMailItems.filter (fun it => it.unread)).length ∧
    (updateStats s').total = s'.allMailItems.length ∧
    (updateStats s').unreadCount
        = ((s'.mailData.mail ++ s'.mailData.letters ++ s'.mailData.packages).filter
            (fun it => it.unread)).length := by
  obtain ⟨okM, bM⟩ := mailR
  obtain ⟨okL, bL⟩ := lettersR
  obtain ⟨okP, bP⟩ := packagesR
  simp only [loadAllMail] at hsucc
  by_cases hk : s.apiKey = ""
  · simp [hk] at hsucc
  · rw [if_neg hk] at hsucc
    cases bM with
    | none => simp at hsucc
    | some mj =>
      cases bL with
      | none => simp at hsucc
      | some lj =>
        cases bP with
        | none => simp at hsucc
        | some pj =>
          cases hok : (okM && okL && okP) with
          | false => rw [hok] at hsucc; simp at hsucc
          | true =>
            rw [hok] at hsucc
            simp only [if_true, Prod.mk.injEq] at hsucc
            obtain ⟨hs', -⟩ := hsucc
            subst hs'
            have hinv := displayMail_union_invariant absFmt now
              { clearMailList s with
                mailData := ⟨normalizeMailData randM now mj,
                  normalizeLettersData randL now lj, normalizePackagesData randP now pj⟩,
                allMailItems := normalizeMailData randM now mj
                  ++ normalizeLettersData randL now lj ++ normalizePackagesData randP now pj }
              rfl
            exact ⟨rfl, rfl, hinv.1.symm, hinv.2⟩

/-- Witness for `load_success_stats`: a concrete successful load of three
empty feeds yields total = 0. -/
theorem load_success_stats_witness :
    (updateStats (loadAllMail janFmt (fun _ => "r") (fun _ => "r") (fun _ => "r") 0
        ⟨true, some (Payload.arr [])⟩ ⟨true, some (Payload.arr [])⟩
        ⟨true, some (Payload.arr [])⟩ ⟨"key", "all", ⟨[], [], []⟩, [], []⟩).1).total = 0 := by
  have h := (load_success_stats janFmt (fun _ => "r") (fun _ => "r") (fun _ => "r") 0
    ⟨true, some (Payload.arr [])⟩ ⟨true, some (Payload.arr [])⟩
    ⟨true, some (Payload.arr [])⟩ ⟨"key", "all", ⟨[], [], []⟩, [], []⟩
    (loadAllMail janFmt (fun _ => "r") (fun _ => "r") (fun _ => "r") 0
      ⟨true, some (Payload.arr [])⟩ ⟨true, some (Payload.arr [])⟩
      ⟨true, some (Payload.arr [])⟩ ⟨"key", "all", ⟨[], [], []⟩, [], []⟩).1
    (by decide)).1
  rw [h]
  decide

/-- C5 (confirmed): package normalization resolves `from` by
from → sender → carrier → "Unknown", `subject` by
subject → tracking_number → "Package" and `preview` by
preview → description → status → "", first present non-empty field winning;
normalizing the single record with only `tracking_number = "T1"` yields
subject "T1". -/
theorem package_fallback_chains (rnd : String) (now : Nat) (item : RawRecord) :
    (normalizePackagesItem rnd now item).from_
        = firstTruthy "Unknown" [item.from_, item.sender, item.carrier] ∧
    (normalizePackagesItem rnd now item).subject
        = firstTruthy "Package" [item.subject, item.tracking_number] ∧
    (normalizePackagesItem rnd now item).preview
        = firstTruthy "" [item.preview, item.description, item.status] ∧
    (normalizePackagesData (fun _ => "r") 0
        (Payload.arr [{ tracking_number := some "T1" }])).map (fun it => it.subject)
      = ["T1"] := by
  refine ⟨?_, ?_, ?_, by decide⟩
  · cases hf : truthyStr item.from_ <;> cases hs : truthyStr item.sender <;>
      cases hc : truthyStr item.carrier <;>
      simp [normalizePackagesItem, firstTruthy, hf, hs, hc]
  · cases h1 : truthyStr item.subject <;> cases h2 : truthyStr item.tracking_number <;>
      simp [normalizePackagesItem, firstTruthy, h1, h2]
  · cases h1 : truthyStr item.preview <;> cases h2 : truthyStr item.description <;>
      cases h3 : truthyStr item.status <;>
      simp [normalizePackagesItem, firstTruthy, h1, h2, h3]

/-- C7 (confirmed): the relative-time formatter returns "now" under one
minute, "{m}m" under 60 minutes, "{h}h" under 24 hours, "{d}d" under 7 days
and the absolute locale date from 7 days on, all thresholds half-open on the
low end. -/
theorem formatDate_thresholds (absFmt : Nat → String) (d n : Nat) (h : d ≤ n) :
    (n - d < 60000 → formatDate absFmt d n = "now") ∧
    (60000 ≤ n - d → n - d < 3600000 →
      formatDate absFmt d n = toString ((n - d) / 60000) ++ "m") ∧
    (3600000 ≤ n - d → n - d < 86400000 →
      formatDate absFmt d n = toString ((n - d) / 3600000) ++ "h") ∧
    (86400000 ≤ n - d → n - d < 604800000 →
      formatDate absFmt d n = toString ((n - d) / 86400000) ++ "d") ∧
    (604800000 ≤ n - d → formatDate absFmt d n = absFmt d) := by
  have hsub : (n : Int) - (d : Int) = ((n - d : Nat) : Int) := by omega
  have e1 : ∀ k : Nat, Int.fdiv (k : Int) 60000 = ((k / 60000 : Nat) : Int) := by
    intro k
    cases k with
    | zero => simp [Int.fdiv]
    | succ m => rfl
  have e2 : ∀ k : Nat, Int.fdiv (k : Int) 3600000 = ((k / 3600000 : Nat) : Int) := by
    intro k
    cases k with
    | zero => simp [Int.fdiv]
    | succ m => rfl
  have e3 : ∀ k : Nat, Int.fdiv (k : Int) 86400000 = ((k / 86400000 : Nat) : Int) := by
    intro k
    cases k with
    | zero => simp [Int.fdiv]
    | succ m => rfl
  simp only [formatDate]
  rw [hsub, e1, e2, e3]
  refine ⟨?_, ?_, ?_, ?_, ?_⟩
  · intro h1
    have hq : (n - d) / 60000 = 0 := Nat.div_eq_of_lt h1
    rw [if_pos]
    rw [hq]
    decide
  · intro h1 h2
    have hc1 : ¬(((n - d) / 60000 : Nat) : Int) < 1 := by
      exact_mod_cast Nat.not_lt.mpr ((Nat.one_le_div_iff (by norm_num)).mpr h1)
    have hc2 : (((n - d) / 60000 : Nat) : Int) < 60 := by
      exact_mod_cast (Nat.div_lt_iff_lt_mul (by norm_num)).mpr (by omega)
    rw [if_neg hc1, if_pos hc2]
    rfl
  · intro h1 h2
    have hc1 : ¬(((n - d) / 60000 : Nat) : Int) < 1 := by
      exact_mod_cast Nat.not_lt.mpr ((Nat.one_le_div_iff (by norm_num)).mpr (by omega))
    have hc2 : ¬(((n - d) / 60000 : Nat) : Int) < 60 := by
      exact_mod_cast Nat.not_lt.mpr ((Nat.le_div_iff_mul_le (by norm_num)).mpr (by omega))
    have hc3 : (((n - d) / 3600000 : Nat) : Int) < 24 := by
      exact_mod_cast (Nat.div_lt_iff_lt_mul (by norm_num)).mpr (by omega)
    rw [if_neg hc1, if_neg hc2, if_pos hc3]
    rfl
  · intro h1 h2
    have hc1 : ¬(((n - d) / 60000 : Nat) : Int) < 1 := by
      exact_mod_cast Nat.not_lt.mpr ((Nat.one_le_div_iff (by norm_num)).mpr (by omega))
    have hc2 : ¬(((n - d) / 60000 : Nat) : Int) < 60 := by
      exact_mod_cast Nat.not_lt.mpr ((Nat.le_div_iff_mul_le (by norm_num)).mpr (by omega))
    have hc3 : ¬(((n - d) / 3600000 : Nat) : Int) < 24 := by
      exact_mod_cast Nat.not_lt.mpr ((Nat.le_div_iff_mul_le (by norm_num)).mpr (by omega))
    have hc4 : (((n - d) / 86400000 : Nat) : Int) < 7 := by
      exact_mod_cast (Nat.div_lt_iff_lt_mul (by norm_num)).mpr (by omega)
    rw [if_neg hc1, if_neg hc2, if_neg hc3, if_pos hc4]
    rfl
  · intro h1
    have hc1 : ¬(((n - d) / 60000 : Nat) : Int) < 1 := by
      exact_mod_cast Nat.not_lt.mpr ((Nat.one_le_div_iff (by norm_num)).mpr (by omega))
    have hc2 : ¬(((n - d) / 60000 : Nat) : Int) < 60 := by
      exact_mod_cast Nat.not_lt.mpr ((Nat.le_div_iff_mul_le (by norm_num)).mpr (by omega))
    have hc3 : ¬(((n - d) / 3600000 : Nat) : Int) < 24 := by
      exact_mod_cast Nat.not_lt.mpr ((Nat.le_div_iff_mul_le (by norm_num)).mpr (by omega))
    have hc4 : ¬(((n - d) / 86400000 : Nat) : Int) < 7 := by
      exact_mod_cast Nat.not_lt.mpr ((Nat.le_div_iff_mul_le (by norm_num)).mpr (by omega))
    rw [if_neg hc1, if_neg hc2, if_neg hc3, if_neg hc4]

/-- Witness for `formatDate_thresholds`: a difference of exactly 60 minutes
renders "1h", not "60m". -/
theorem formatDate_thresholds_witness :
    formatDate (fun _ => "Oct 11") 0 3600000 = "1h" := by
  have h := (formatDate_thresholds (fun _ => "Oct 11") 0 3600000 (by decide)).2.2.1
    (by decide) (by decide)
  rw [h]
  decide

/-- C8 (confirmed): `extractDetails` returns exactly the rows of the fixed,
ordered key vocabulary (id, status, tracking_number, carrier, weight,
dimensions, sender_address, recipient_address, estimated_delivery) that are
present and non-empty in the retained raw record, and its labels always form
a sublist of that fixed vocabulary — no other raw field ever appears. -/
theorem extractDetails_fixed_vocabulary (item : NormalizedItem) :
    extractDetails item = extractDetailsSpec item.originalData ∧
    ((extractDetails item).map (fun d => d.label)).Sublist
      ["ID", "Status", "Tracking", "Carrier", "Weight", "Dimensions",
       "Sender Address", "Recipient", "Est. Delivery"] := by
  have heq : extractDetails item = extractDetailsSpec item.originalData := by
    simp only [extractDetails, pushIf_eq, extractDetailsSpec, detailKeySpec,
      filterMap_cons_toList, List.filterMap_nil]
    simp [List.append_assoc]
  refine ⟨heq, ?_⟩
  rw [heq]
  exact detailSpec_label_sublist _

/-- C1 (counterexample): with the same store, same final filter and same
search text, performing filter-then-search versus search-then-filter leaves
identical stores and filter but DIFFERENT visible sets — the visible set is
not a pure function of (store, filter, searchText), because a filter change
re-renders the list and discards the search constraint. -/
theorem search_filter_order_dependent :
    (searchMail "zzz" (filterMail janFmt 0 "all" c1Start)).mailData
        = (filterMail janFmt 0 "all" (searchMail "zzz" c1Start)).mailData ∧
    (searchMail "zzz" (filterMail janFmt 0 "all" c1Start)).allMailItems
        = (filterMail janFmt 0 "all" (searchMail "zzz" c1Start)).allMailItems ∧
    (searchMail "zzz" (filterMail janFmt 0 "all" c1Start)).currentFilter
        = (filterMail janFmt 0 "all" (searchMail "zzz" c1Start)).currentFilter ∧
    visibleItems (searchMail "zzz" (filterMail janFmt 0 "all" c1Start))
        ≠ visibleItems (filterMail janFmt 0 "all" (searchMail "zzz" c1Start)) := by
  decide

/-- C1 (corrected): a search applied to a freshly rendered list shows exactly
the intersection of the filter's base set (sorted by date descending) with
the case-insensitive substring predicate over the rendered text — but a
filter change re-renders with every item visible, discarding any prior
search. -/
theorem visible_set_composition (absFmt : Nat → String) (now : Nat) (q c : String)
    (s : AppState) :
    visibleItems (searchMail q (displayMail absFmt now s))
        = (sortByDateDesc (selectBase s)).filter
            (fun it => strIncludes (jsToLower (renderedText absFmt now it)) (jsToLower q)) ∧
    visibleItems (filterMail absFmt now c s)
        = sortByDateDesc (selectBase { s with currentFilter := c }) := by
  constructor
  · simp only [visibleItems, searchMail, displayMail]
    exact filter_visible_map (fun t => strIncludes (jsToLower t) (jsToLower q))
      (renderedText absFmt now) (sortByDateDesc (selectBase s))
  · simp only [visibleItems, filterMail, displayMail]
    exact map_render_all_visible (renderedText absFmt now)
      (sortByDateDesc (selectBase { s with currentFilter := c }))

/-- C2 (counterexample): displaying with the default `all` filter sorts the
stored union IN PLACE — starting from a union in source-concatenation order,
after one `displayMail` the stored union differs from its old value and from
the concatenation of the stored category sequences. -/
theorem display_reorders_stored_union :
    c2State.allMailItems
        = c2State.mailData.mail ++ c2State.mailData.letters ++ c2State.mailData.packages ∧
    (displayMail janFmt 10 c2State).allMailItems ≠ c2State.allMailItems ∧
    (displayMail janFmt 10 c2State).allMailItems
        ≠ (displayMail janFmt 10 c2State).mailData.mail
          ++ (displayMail janFmt 10 c2State).mailData.letters
          ++ (displayMail janFmt 10 c2State).mailData.packages := by
  decide

/-- C2 (corrected): `displayMail` sorts the selected base sequence in place:
with filter `unread` the store is unchanged (the sort runs on a fresh
`filter()` copy); with the default `all` filter the per-category sequences
are unchanged but the stored union is replaced by its date-descending sort;
with each category filter (`mail`, `letters`, `packages`) the union and the
other two categories are unchanged but that category's stored sequence is
replaced by its date-descending sort. -/
theorem display_store_effects (absFmt : Nat → String) (now : Nat) (s : AppState) :
    (s.currentFilter = "unread" →
      (displayMail absFmt now s).mailData = s.mailData ∧
      (displayMail absFmt now s).allMailItems = s.allMailItems) ∧
    (s.currentFilter = "all" →
      (displayMail absFmt now s).mailData = s.mailData ∧
      (displayMail absFmt now s).allMailItems = sortByDateDesc s.allMailItems) ∧
    (s.currentFilter = "mail" →
      (displayMail absFmt now s).allMailItems = s.allMailItems ∧
      (displayMail absFmt now s).mailData.letters = s.mailData.letters ∧
      (displayMail absFmt now s).mailData.packages = s.mailData.packages ∧
      (displayMail absFmt now s).mailData.mail = sortByDateDesc s.mailData.mail) ∧
    (s.currentFilter = "letters" →
      (displayMail absFmt now s).allMailItems = s.allMailItems ∧
      (displayMail absFmt now s).mailData.mail = s.mailData.mail ∧
      (displayMail absFmt now s).mailData.packages = s.mailData.packages ∧
      (displayMail absFmt now s).mailData.letters = sortByDateDesc s.mailData.letters) ∧
    (s.currentFilter = "packages" →
      (displayMail absFmt now s).allMailItems = s.allMailItems ∧
      (displayMail absFmt now s).mailData.mail = s.mailData.mail ∧
      (displayMail absFmt now s).mailData.letters = s.mailData.letters ∧
      (displayMail absFmt now s).mailData.packages = sortByDateDesc s.mailData.packages) := by
  refine ⟨fun h => ?_, fun h => ?_, fun h => ?_, fun h => ?_, fun h => ?_⟩
  · exact ⟨by simp [displayMail, selectBase, h], by simp [displayMail, selectBase, h]⟩
  · exact ⟨by simp [displayMail, selectBase, h], by simp [displayMail, selectBase, h]⟩
  · refine ⟨?_, ?_, ?_, ?_⟩ <;> simp [displayMail, selectBase, h]
  · refine ⟨?_, ?_, ?_, ?_⟩ <;> simp [displayMail, selectBase, h]
  · refine ⟨?_, ?_, ?_, ?_⟩ <;> simp [displayMail, selectBase, h]

/-- Witness for `display_store_effects`: with the `unread` filter active on a
concrete state, displaying leaves the store untouched. -/
theorem display_store_effects_witness :
    (displayMail janFmt 0 c2WState).mailData = c2WState.mailData ∧
    (displayMail janFmt 0 c2WState).allMailItems = c2WState.allMailItems :=
  (display_store_effects janFmt 0 c2WState).1 rfl

theorem extractLocationData_of_shape1_fail (item : NormalizedItem)
    (hs1 : ∀ loc, item.originalData.location = some loc →
      truthyInt loc.lat = none ∨ truthyInt loc.lng = none) :
    extractLocationData item
      = match truthyInt item.originalData.latitude,
          truthyInt item.originalData.longitude with
        | some la, some ln => some ⟨some la, some ln, "Location"⟩
        | _, _ =>
          match item.originalData.tracking_location with
          | some tl => some ⟨tl.lat, tl.lng, "Tracking Location"⟩
          | none => none := by
  cases hloc : item.originalData.location with
  | none => simp [extractLocationData, hloc]
  | some loc =>
    rcases hs1 loc hloc with h | h
    · simp [extractLocationData, hloc, h]
    · cases hlat : truthyInt loc.lat with
      | none => simp [extractLocationData, hloc, hlat]
      | some x => simp [extractLocationData, hloc, hlat, h]

/-- C6 (counterexample): for a record whose `tracking_location` object is
present but carries no coordinates, `extractLocationData` returns a partial
point (both coordinates absent) instead of none — the third shape is taken
without checking that it yields both coordinates. -/
theorem tracking_location_unchecked :
    extractLocationData c6Item = some ⟨none, none, "Tracking Location"⟩ ∧
    extractLocationData c6Item ≠ none := by
  decide

/-- C6 (corrected): the three raw shapes are tried in order and
`location.{lat,lng}` takes precedence over top-level `latitude`/`longitude`;
the first two shapes require both coordinates truthy, but the third fires
whenever `tracking_location` is present, copying its possibly-missing
coordinates verbatim; none is returned only when additionally
`tracking_location` is absent. -/
theorem extract_location_cases (item : NormalizedItem) :
    (∀ loc la ln, item.originalData.location = some loc →
      truthyInt loc.lat = some la → truthyInt loc.lng = some ln →
      extractLocationData item
        = some ⟨some la, some ln, firstTruthy "Location" [loc.label]⟩) ∧
    ((∀ loc, item.originalData.location = some loc →
        truthyInt loc.lat = none ∨ truthyInt loc.lng = none) →
      (∀ la ln, truthyInt item.originalData.latitude = some la →
          truthyInt item.originalData.longitude = some ln →
          extractLocationData item = some ⟨some la, some ln, "Location"⟩) ∧
      ((truthyInt item.originalData.latitude = none ∨
          truthyInt item.originalData.longitude = none) →
        (∀ tl, item.originalData.tracking_location = some tl →
          extractLocationData item = some ⟨tl.lat, tl.lng, "Tracking Location"⟩) ∧
        (item.originalData.tracking_location = none →
          extractLocationData item = none))) := by
  refine ⟨?_, fun hs1 => ⟨?_, fun hs2 => ⟨?_, ?_⟩⟩⟩
  · intro loc la ln hloc hla hln
    cases hlab : truthyStr loc.label <;>
      simp [extractLocationData, hloc, hla, hln, firstTruthy, hlab]
  · intro la ln hla hln
    rw [extractLocationData_of_shape1_fail item hs1]
    simp [hla, hln]
  · intro tl htl
    rw [extractLocationData_of_shape1_fail item hs1]
    cases hlat2 : truthyInt item.originalData.latitude with
    | none => simp [hlat2, htl]
    | some xla =>
      have h2 : truthyInt item.originalData.longitude = none := by
        rcases hs2 with h | h
        · rw [hlat2] at h
          cases h
        · exact h
      simp [hlat2, h2, htl]
  · intro htl
    rw [extractLocationData_of_shape1_fail item hs1]
    cases hlat2 : truthyInt item.originalData.latitude with
    | none => simp [hlat2, htl]
    | some xla =>
      have h2 : truthyInt item.originalData.longitude = none := by
        rcases hs2 with h | h
        · rw [hlat2] at h
          cases h
        · exact h
      simp [hlat2, h2, htl]

/-- Witness for `extract_location_cases`: a record carrying both
`location.{lat,lng}` and top-level coordinates yields the `location.*`
point. -/
theorem extract_location_cases_witness :
    extractLocationData c6PrecItem = some ⟨some 1, some 2, "Location"⟩ :=
  (extract_location_cases c6PrecItem).1 ⟨some 1, some 2, none⟩ 1 2 rfl (by decide) (by decide)

/-- C9 (counterexample): normalization is NOT a pure function of the raw
payload — on a record lacking `id` the result depends on the ambient random
stream, and on a record lacking a date it depends on the current clock. -/
theorem normalize_ambient_dependence :
    normalizeMailData (fun _ => "a") 0 (Payload.arr [{}])
        ≠ normalizeMailData (fun _ => "b") 0 (Payload.arr [{}]) ∧
    normalizeMailData (fun _ => "a") 0 (Payload.arr [{}])
        ≠ normalizeMailData (fun _ => "a") 1 (Payload.arr [{}]) := by
  decide

/-- C9 (corrected): normalization is deterministic on every payload whose
records all carry a non-empty `id` and an explicit `date` — only the
generated-id and default-date fallbacks consult the random stream or the
clock. -/
theorem normalize_deterministic_with_id_date (r1 r2 : Nat → String) (n1 n2 : Nat)
    (items : List RawRecord)
    (h : ∀ it ∈ items, truthyStr it.id ≠ none ∧ it.date ≠ none) :
    normalizeMailData r1 n1 (Payload.arr items)
        = normalizeMailData r2 n2 (Payload.arr items) ∧
    normalizeLettersData r1 n1 (Payload.arr items)
        = normalizeLettersData r2 n2 (Payload.arr items) ∧
    normalizePackagesData r1 n1 (Payload.arr items)
        = normalizePackagesData r2 n2 (Payload.arr items) :=
  ⟨normalizeList_ambient_free _ normalizeMailItem_ambient_free r1 r2 n1 n2 0 0 items h,
   normalizeList_ambient_free _ normalizeLettersItem_ambient_free r1 r2 n1 n2 0 0 items h,
   normalizeList_ambient_free _ normalizePackagesItem_ambient_free r1 r2 n1 n2 0 0 items h⟩

/-- Witness for `normalize_deterministic_with_id_date`: a record carrying
`id` and `date` normalizes identically under different ambient streams and
clocks. -/
theorem normalize_deterministic_with_id_date_witness :
    normalizeMailData (fun _ => "a") 0 (Payload.arr [{ id := some "x", date := some 5 }])
      = normalizeMailData (fun _ => "b") 7 (Payload.arr [{ id := some "x", date := some 5 }]) :=
  (normalize_deterministic_with_id_date (fun _ => "a") (fun _ => "b") 0 7
    [{ id := some "x", date := some 5 }] (by decide)).1

/-- C10 (confirmed): a coordinate equal to 0 is treated as absent — a
`location` object with `lat = 0` or `lng = 0` is skipped exactly as if the
`location` field were missing, and a record whose only coordinates are
top-level `latitude = 0`, `longitude = 0` yields none. -/
theorem zero_coord_treated_absent :
    (∀ (item : NormalizedItem) (loc : LocShape),
      item.originalData.location = some loc →
      (loc.lat = some 0 ∨ loc.lng = some 0) →
      extractLocationData item
        = extractLocationData
            ⟨item.id, item.type, item.from_, item.subject, item.preview, item.date,
              item.unread, { item.originalData with location := none }⟩) ∧
    (∀ item : NormalizedItem,
      item.originalData.latitude = some 0 → item.originalData.longitude = some 0 →
      item.originalData.location = none → item.originalData.tracking_location = none →
      extractLocationData item = none) := by
  constructor
  · intro item loc hloc hz
    have h1 : truthyInt loc.lat = none ∨ truthyInt loc.lng = none := by
      rcases hz with h | h
      · left
        simp [h, truthyInt]
      · right
        simp [h, truthyInt]
    rcases h1 with h | h
    · simp [extractLocationData, hloc, h]
    · cases hlat : truthyInt loc.lat with
      | none => simp [extractLocationData, hloc, hlat]
      | some x => simp [extractLocationData, hloc, hlat, h]
  · intro item h1 h2 h3 h4
    simp [extractLocationData, h3, h4, h1, h2, truthyInt]

/-- Witness for `zero_coord_treated_absent`: the record with only
`latitude = 0`, `longitude = 0` yields no location point. -/
theorem zero_coord_treated_absent_witness :
    extractLocationData c10Item = none :=
  zero_coord_treated_absent.2 c10Item rfl rfl rfl rfl
